import Mathlib

/-!
Shallow embedding of the mpv-socket protocol engine (crate `mpv-socket`):
the JSON value model, the wire codec for requests and inbound envelopes,
the connection manager (`MpvSocket::connect`), the request/response
correlator (`send_recv_command`), and the subscription engine
(`EventIter::next`, `filter_property_change_event`, `Drop for EventIter`).
The duplex channel is modelled as a list of inbound read outcomes plus a
list of outbound requests; machine integers are `Int` with explicit
wrapping where the code wraps.
-/

namespace Mpv

/-- JSON number as stored by serde_json: an integer (covering the PosInt
and NegInt representations, with values in the signed/unsigned 64-bit
range) or a finite double, whose payload is modelled as a rational. -/
inductive JNumber where
  | int (n : Int)
  | float (q : Rat)
deriving DecidableEq

/-- serde_json::Value, which property.rs re-exports as the crate-wide
`Value` type (`pub use serde_json::{Map, Value}`). `null` doubles as the
absent placeholder produced by the `Value::none` serde default in
protocol.rs and asserted by `set_property`. -/
inductive Value where
  | null
  | bool (b : Bool)
  | number (n : JNumber)
  | str (s : String)
  | arr (elems : List Value)
  | obj (fields : List (String × Value))

/-- The serde default for the `data` field of a command response:
missing data is the absent value. -/
def Value.none : Value := Value.null

/-- Whether a value is the absent placeholder (the `Value::Null` arm the
code matches on). -/
def Value.isNull : Value → Bool
  | .null => true
  | _ => false

/-- Signed 64-bit minimum. -/
def i64Min : Int := -(2 ^ 63)

/-- Signed 64-bit maximum. -/
def i64Max : Int := 2 ^ 63 - 1

/-- serde_json `Value::as_i64`: only integer-representation numbers that
fit in i64; floats are never silently truncated. -/
def Value.as_i64 : Value → Option Int
  | .number (.int n) => if i64Min ≤ n ∧ n ≤ i64Max then some n else Option.none
  | _ => Option.none

/-- serde_json `Value::as_u64`: only non-negative integer-representation
numbers that fit in u64. -/
def Value.as_u64 : Value → Option Int
  | .number (.int n) => if 0 ≤ n ∧ n < 2 ^ 64 then some n else Option.none
  | _ => Option.none

/-- serde_json `Value::as_f64`: any numeric representation converts,
integers are promoted to double. The lossiness of the i64-to-f64
conversion is not modelled; no claim depends on converted magnitudes. -/
def Value.as_f64 : Value → Option Rat
  | .number (.int n) => some (n : Rat)
  | .number (.float q) => some q
  | _ => Option.none

/-- serde_json `Value::as_str`. -/
def Value.as_str : Value → Option String
  | .str s => some s
  | _ => Option.none

/-- Debug rendering of a JSON number (float formatting is abstracted by
the rational rendering; only the shape of the text matters to claims). -/
def JNumber.fmtDebug : JNumber → String
  | .int n => toString n
  | .float q => toString q

mutual

/-- Debug rendering of a Value, mirroring the variant names printed by
the derived Debug implementation of serde_json::Value. -/
def Value.fmtDebug : Value → String
  | .null => "Null"
  | .bool b => "Bool(" ++ toString b ++ ")"
  | .number n => "Number(" ++ n.fmtDebug ++ ")"
  | .str s => "String(\"" ++ s ++ "\")"
  | .arr elems => "Array [" ++ Value.fmtDebugList elems ++ "]"
  | .obj fields => "Object \x7b" ++ Value.fmtDebugFields fields ++ "\x7d"

/-- Debug rendering of the elements of an array. -/
def Value.fmtDebugList : List Value → String
  | [] => ""
  | [v] => v.fmtDebug
  | v :: rest => v.fmtDebug ++ ", " ++ Value.fmtDebugList rest

/-- Debug rendering of the fields of an object. -/
def Value.fmtDebugFields : List (String × Value) → String
  | [] => ""
  | [(k, v)] => "\"" ++ k ++ "\": " ++ v.fmtDebug
  | (k, v) :: rest => "\"" ++ k ++ "\": " ++ v.fmtDebug ++ ", " ++ Value.fmtDebugFields rest

end

/-- The property identifiers of property.rs (enum `Property`). -/
inductive Property where
  | AudioSpeedCorrection
  | VideoSpeedCorrection
  | DisplaySyncActive
  | Filename
  | FilenameNoExt
  | FileSize
  | EstimatedFrameCount
  | EstimatedFrameNumber
  | Path
  | StreamOpenFilename
  | MediaTitle
  | FileFormat
  | CurrentDemuxer
  | StreamPath
  | StreamPos
  | StreamEnd
  | Duration
  | PercentPos
  | TimePos
  | TimeStart
  | TimeRemaining
  | PlaybackTime
  | Seeking
  | Volume
  | Pause
deriving DecidableEq

/-- Wire name of a property (`impl From<&Property> for Value`). -/
def Property.wireName : Property → String
  | .AudioSpeedCorrection => "audio-speed-correction"
  | .VideoSpeedCorrection => "video-speed-correction"
  | .DisplaySyncActive => "display-sync-active"
  | .Filename => "filename"
  | .FilenameNoExt => "filename/no-ext"
  | .FileSize => "file-size"
  | .EstimatedFrameCount => "estimated-frame-count"
  | .EstimatedFrameNumber => "estimated-frame-number"
  | .Path => "path"
  | .StreamOpenFilename => "stream-open-filename"
  | .MediaTitle => "media-title"
  | .FileFormat => "file-format"
  | .CurrentDemuxer => "current-demuxer"
  | .StreamPath => "stream-path"
  | .StreamPos => "stream-pos"
  | .StreamEnd => "stream-end"
  | .Duration => "duration"
  | .PercentPos => "percent-pos"
  | .TimePos => "time-pos"
  | .TimeStart => "time-start"
  | .TimeRemaining => "time-remaining"
  | .PlaybackTime => "playback-time"
  | .Seeking => "seeking"
  | .Volume => "volume"
  | .Pause => "pause"

/-- Inverse of the kebab-case rename used by the derived Deserialize of
`Property`: an unknown name is a deserialization error (no catch-all). -/
def Property.fromStr (s : String) : Option Property :=
  if s = "audio-speed-correction" then some .AudioSpeedCorrection
  else if s = "video-speed-correction" then some .VideoSpeedCorrection
  else if s = "display-sync-active" then some .DisplaySyncActive
  else if s = "filename" then some .Filename
  else if s = "filename/no-ext" then some .FilenameNoExt
  else if s = "file-size" then some .FileSize
  else if s = "estimated-frame-count" then some .EstimatedFrameCount
  else if s = "estimated-frame-number" then some .EstimatedFrameNumber
  else if s = "path" then some .Path
  else if s = "stream-open-filename" then some .StreamOpenFilename
  else if s = "media-title" then some .MediaTitle
  else if s = "file-format" then some .FileFormat
  else if s = "current-demuxer" then some .CurrentDemuxer
  else if s = "stream-path" then some .StreamPath
  else if s = "stream-pos" then some .StreamPos
  else if s = "stream-end" then some .StreamEnd
  else if s = "duration" then some .Duration
  else if s = "percent-pos" then some .PercentPos
  else if s = "time-pos" then some .TimePos
  else if s = "time-start" then some .TimeStart
  else if s = "time-remaining" then some .TimeRemaining
  else if s = "playback-time" then some .PlaybackTime
  else if s = "seeking" then some .Seeking
  else if s = "volume" then some .Volume
  else if s = "pause" then some .Pause
  else Option.none

/-- The crate Commands (protocol.rs enum `Command`). -/
inductive Command where
  | ClientName
  | GetTimeUs
  | GetProperty (p : Property)
  | SetProperty (p : Property) (v : Value)
  | ObserveProperty (id : Int) (p : Property)
  | UnobserveProperty (id : Int)
  | RequestLogMessages
  | GetVersion

/-- `Command::name`. -/
def Command.name : Command → String
  | .ClientName => "client_name"
  | .GetTimeUs => "get_time_us"
  | .GetProperty _ => "get_property"
  | .SetProperty _ _ => "set_property"
  | .ObserveProperty _ _ => "observe_property"
  | .UnobserveProperty _ => "unobserve_property"
  | .RequestLogMessages => "request_log_messages"
  | .GetVersion => "get_version"

/-- `Command::params`. -/
def Command.params : Command → List Value
  | .ClientName => []
  | .GetTimeUs => []
  | .GetProperty p => [Value.str p.wireName]
  | .SetProperty p v => [Value.str p.wireName, v]
  | .ObserveProperty id p => [Value.number (.int id), Value.str p.wireName]
  | .UnobserveProperty id => [Value.number (.int id)]
  | .RequestLogMessages => []
  | .GetVersion => []

/-- A request as written to the socket (protocol.rs struct `Request`). -/
structure Request where
  command : Command
  request_id : Int

/-- JSON string escaping as done by serde_json for the characters that
can occur in this protocol (quote, backslash, the common control
characters; other control characters are not modelled). -/
def escapeJsonChar (c : Char) : String :=
  if c = '"' then "\\\""
  else if c = '\\' then "\\\\"
  else if c = '\n' then "\\n"
  else if c = '\r' then "\\r"
  else if c = '\t' then "\\t"
  else String.singleton c

/-- Escape a whole string for JSON output. -/
def escapeJsonString (s : String) : String :=
  String.join (s.toList.map escapeJsonChar)

mutual

/-- Compact JSON serialization of a Value, as serde_json::to_vec emits
it. Float formatting is abstracted by the rational rendering; no claim
serializes a float. -/
def Value.toJson : Value → String
  | .null => "null"
  | .bool b => if b then "true" else "false"
  | .number (.int n) => toString n
  | .number (.float q) => toString q
  | .str s => "\"" ++ escapeJsonString s ++ "\""
  | .arr elems => "[" ++ Value.toJsonList elems ++ "]"
  | .obj fields => "\x7b" ++ Value.toJsonFields fields ++ "\x7d"

/-- Comma-separated serialization of array elements. -/
def Value.toJsonList : List Value → String
  | [] => ""
  | [v] => v.toJson
  | v :: rest => v.toJson ++ "," ++ Value.toJsonList rest

/-- Comma-separated serialization of object fields. -/
def Value.toJsonFields : List (String × Value) → String
  | [] => ""
  | [(k, v)] => "\"" ++ escapeJsonString k ++ "\":" ++ v.toJson
  | (k, v) :: rest =>
      "\"" ++ escapeJsonString k ++ "\":" ++ v.toJson ++ "," ++ Value.toJsonFields rest

end

/-- Serialization of a Command (serde_impl.rs `impl Serialize for
Command`): a JSON sequence of the name followed by the parameters. -/
def Command.toJson (c : Command) : String :=
  "[" ++ Value.toJsonList (Value.str c.name :: c.params) ++ "]"

/-- Serialization of a Request: field order is declaration order of the
derived Serialize (`command`, then `request_id`). -/
def Request.toJson (r : Request) : String :=
  "\x7b\"command\":" ++ r.command.toJson ++ ",\"request_id\":" ++ toString r.request_id ++ "\x7d"

/-- Why playback ended (event.rs enum `Reason`, kebab-case on the wire). -/
inductive Reason where
  | Eof
  | Stop
  | Quit
  | Error
  | Redirect
  | Unknown
deriving DecidableEq

/-- Wire-name table of `Reason` (derived kebab-case Deserialize). -/
def Reason.fromStr (s : String) : Option Reason :=
  if s = "eof" then some .Eof
  else if s = "stop" then some .Stop
  else if s = "quit" then some .Quit
  else if s = "error" then some .Error
  else if s = "redirect" then some .Redirect
  else if s = "unknown" then some .Unknown
  else Option.none

/-- Payload of a property-change event (event.rs `PropertyChangeEvent`).
`data` defaults to the absent value when the field is missing. -/
structure PropertyChangeEvent where
  name : Property
  data : Value

/-- Payload of a start-file event (event.rs `StartFileEvent`). -/
structure StartFileEvent where
  playlist_entry_id : Option Int

/-- Payload of an end-file event (event.rs `EndFileEvent`). -/
structure EndFileEvent where
  reason : Option Reason
  playlist_entry_id : Option Int
  file_error : Option String
  playlist_insert_id : Option Int
  playlist_insert_num_entries : Option Int

/-- Payload of a log-message event (event.rs `LogMessageEvent`; the
`prefix` field is named `prefixStr` here). -/
structure LogMessageEvent where
  prefixStr : String
  level : String
  text : String

/-- Payload of a hook event (event.rs `HookEvent`). -/
structure HookEvent where
  hook_id : Value

/-- Mpv event variants (event.rs enum `Event`), internally tagged by the
`event` field with kebab-case names and an `Other` catch-all. -/
inductive Event where
  | PropertyChange (e : PropertyChangeEvent)
  | StartFile (e : StartFileEvent)
  | EndFile (e : EndFileEvent)
  | FileLoaded
  | Seek
  | PlaybackRestart
  | Shutdown
  | LogMessage (e : LogMessageEvent)
  | Hook (e : HookEvent)
  | GetPropertyReply (v : Value)
  | SetPropertyReply (v : Value)
  | CommandReply (v : Value)
  | ClientMessage (v : Value)
  | VideoReconfig
  | AudioReconfig
  | TracksChanged
  | TrackSwitched
  | Pause
  | Unpause
  | MetadataUpdate
  | Idle
  | Tick
  | ChapterChange
  | Other

/-- Inbound command-response envelope (protocol.rs `CommandResponse`). -/
structure CommandResponse where
  request_id : Option Int
  error : Option String
  data : Value

/-- Inbound event envelope (protocol.rs `EventResponse`): the flattened
event plus the optional observer-id and error string. -/
structure EventResponse where
  event : Event
  id : Option Int
  error : Option String

/-- Field lookup in a parsed JSON object (first occurrence; duplicate
fields, which serde rejects, are not modelled). -/
def getField : List (String × Value) → String → Option Value
  | [], _ => Option.none
  | (k, v) :: rest, key => if k = key then some v else getField rest key

/-- Deserialize an i64 field: only integer numbers in signed 64-bit
range are accepted. -/
def parseI64 (v : Value) : Except String Int :=
  match v.as_i64 with
  | some n => .ok n
  | Option.none => .error ("invalid type: expected i64, found " ++ v.fmtDebug)

/-- Deserialize an `Option<i64>` field: a missing or null field is None. -/
def parseOptI64 : Option Value → Except String (Option Int)
  | Option.none => .ok Option.none
  | some .null => .ok Option.none
  | some v => (parseI64 v).map some

/-- Deserialize a String field. -/
def parseStringField (v : Value) : Except String String :=
  match v with
  | .str s => .ok s
  | v => .error ("invalid type: expected a string, found " ++ v.fmtDebug)

/-- Deserialize an `Option<String>` field. -/
def parseOptString : Option Value → Except String (Option String)
  | Option.none => .ok Option.none
  | some .null => .ok Option.none
  | some v => (parseStringField v).map some

/-- Deserialize an `Option<Reason>` field. -/
def parseOptReason : Option Value → Except String (Option Reason)
  | Option.none => .ok Option.none
  | some .null => .ok Option.none
  | some (.str s) =>
      match Reason.fromStr s with
      | some r => .ok (some r)
      | Option.none => .error ("unknown variant for reason: " ++ s)
  | some v => .error ("invalid type: expected a reason string, found " ++ v.fmtDebug)

/-- Deserialize a command-response envelope from a parsed JSON line
(derived Deserialize of `CommandResponse`: optional `request_id`,
optional `error`, `data` defaulting to the absent value, unknown fields
ignored). -/
def CommandResponse.fromJson : Value → Except String CommandResponse
  | .obj fields => do
      let rid ← parseOptI64 (getField fields ("request_id"))
      let err ← parseOptString (getField fields ("error"))
      let data := (getField fields ("data")).getD Value.none
      .ok ⟨rid, err, data⟩
  | v => .error ("invalid type: expected a response object, found " ++ v.fmtDebug)

/-- Deserialize the flattened event part of a line (internally tagged by
`event`, kebab-case, with the serde(other) catch-all `Other`). -/
def Event.fromFields (fields : List (String × Value)) : Except String Event :=
  match getField fields ("event") with
  | some (.str tag) =>
      if tag = "property-change" then do
        let name ←
          match getField fields ("name") with
          | some (.str s) =>
              match Property.fromStr s with
              | some p => Except.ok p
              | Option.none => Except.error ("unknown variant for property name: " ++ s)
          | some v => Except.error ("invalid type: expected a property name, found " ++ v.fmtDebug)
          | Option.none => Except.error ("missing field name")
        let data := (getField fields ("data")).getD Value.null
        .ok (.PropertyChange ⟨name, data⟩)
      else if tag = "start-file" then do
        let pei ← parseOptI64 (getField fields ("playlist_entry_id"))
        .ok (.StartFile ⟨pei⟩)
      else if tag = "end-file" then do
        let reason ← parseOptReason (getField fields ("reason"))
        let pei ← parseOptI64 (getField fields ("playlist_entry_id"))
        let fe ← parseOptString (getField fields ("file_error"))
        let pii ← parseOptI64 (getField fields ("playlist_insert_id"))
        let pine ← parseOptI64 (getField fields ("playlist_insert_num_entries"))
        .ok (.EndFile ⟨reason, pei, fe, pii, pine⟩)
      else if tag = "file-loaded" then .ok .FileLoaded
      else if tag = "seek" then .ok .Seek
      else if tag = "playback-restart" then .ok .PlaybackRestart
      else if tag = "shutdown" then .ok .Shutdown
      else if tag = "log-message" then do
        let p ←
          match getField fields ("prefix") with
          | some v => parseStringField v
          | Option.none => Except.error ("missing field prefix")
        let l ←
          match getField fields ("level") with
          | some v => parseStringField v
          | Option.none => Except.error ("missing field level")
        let t ←
          match getField fields ("text") with
          | some v => parseStringField v
          | Option.none => Except.error ("missing field text")
        .ok (.LogMessage ⟨p, l, t⟩)
      else if tag = "hook" then
        match getField fields ("hook_id") with
        | some v => .ok (.Hook ⟨v⟩)
        | Option.none => .error ("missing field hook_id")
      else if tag = "get-property-reply" then .ok (.GetPropertyReply (Value.obj fields))
      else if tag = "set-property-reply" then .ok (.SetPropertyReply (Value.obj fields))
      else if tag = "command-reply" then .ok (.CommandReply (Value.obj fields))
      else if tag = "client-message" then .ok (.ClientMessage (Value.obj fields))
      else if tag = "video-reconfig" then .ok .VideoReconfig
      else if tag = "audio-reconfig" then .ok .AudioReconfig
      else if tag = "tracks-changed" then .ok .TracksChanged
      else if tag = "track-switched" then .ok .TrackSwitched
      else if tag = "pause" then .ok .Pause
      else if tag = "unpause" then .ok .Unpause
      else if tag = "metadata-update" then .ok .MetadataUpdate
      else if tag = "idle" then .ok .Idle
      else if tag = "tick" then .ok .Tick
      else if tag = "chapter-change" then .ok .ChapterChange
      else .ok .Other
  | some v => .error ("invalid type for the event tag: " ++ v.fmtDebug)
  | Option.none => .error ("missing field event")

/-- Deserialize an event envelope from a parsed JSON line (derived
Deserialize of `EventResponse`: flattened event, optional `id`,
optional `error`). -/
def EventResponse.fromJson : Value → Except String EventResponse
  | .obj fields => do
      let ev ← Event.fromFields fields
      let id ← parseOptI64 (getField fields ("id"))
      let err ← parseOptString (getField fields ("error"))
      .ok ⟨ev, id, err⟩
  | v => .error ("invalid type: expected an event object, found " ++ v.fmtDebug)

/-- Debug rendering of an optional integer, as Rust formats Option. -/
def fmtOptInt : Option Int → String
  | Option.none => "None"
  | some n => "Some(" ++ toString n ++ ")"

/-- Debug rendering of an optional string, as Rust formats Option. -/
def fmtOptString : Option String → String
  | Option.none => "None"
  | some s => "Some(\"" ++ s ++ "\")"

/-- Debug rendering of a command response, used by the
"unknown mpv response" error message. -/
def CommandResponse.fmtDebug (r : CommandResponse) : String :=
  "CommandResponse \x7b request_id: " ++ fmtOptInt r.request_id ++
    ", error: " ++ fmtOptString r.error ++ ", data: " ++ r.data.fmtDebug ++ " \x7d"

/-- The crate error type (`Box<dyn Error + Send + Sync>`), modelled with
the distinctions the code observes: plain message errors produced with
`.into()` on a string, I/O errors with their optional raw OS code, and
serde deserialization errors. -/
inductive MpvError where
  | msg (s : String)
  | ioErr (osCode : Option Int) (s : String)
  | serde (s : String)
deriving DecidableEq

/-- error.rs: all pipe instances are busy (Windows). -/
def ERROR_PIPE_BUSY : Int := 231

/-- error.rs: the pipe is being closed (Windows). -/
def ERROR_NO_DATA : Int := 232

/-- One outcome of `read_until` on the inbound stream: a complete line
already split and parsed into its JSON document, or an I/O error. End of
stream (the zero-length read) is the end of the list. -/
inductive ReadItem where
  | line (j : Value)
  | ioErr (osCode : Option Int) (s : String)

/-- The connection state (lib.rs struct `MpvSocket`): the unread inbound
side of the channel, the requests written so far, the request-id counter
and the closed flag. The Rust `read_buf` scratch buffer has no
observable state and is not modelled. -/
structure MpvSocket where
  inbound : List ReadItem
  outbound : List Request
  last_request_id : Int
  closed : Bool

/-- Wrap an integer into the signed 64-bit range, as
`Wrapping<i64>` addition does. -/
def wrapI64 (x : Int) : Int :=
  (x + 2 ^ 63) % 2 ^ 64 - 2 ^ 63

/-- `RequestId::new`: the counter starts at zero. -/
def RequestId.new : Int := 0

/-- `RequestId::advance`: wrapping signed 64-bit addition, returning the
new counter value. -/
def RequestId.advance (r : Int) (num : Int) : Int :=
  wrapI64 (r + num)

/-- `RequestId::next`: advance by one (pre-increment). -/
def RequestId.next (r : Int) : Int :=
  RequestId.advance r 1

/-- Classification of the matching reply inside `send_recv_command`:
error "success" yields the data, any other error string a descriptive
error, and a missing error field the "unknown mpv response" error. -/
def classifyResponse (resp : CommandResponse) : Except MpvError Value :=
  match resp.error with
  | some e =>
      if e = "success" then .ok resp.data
      else .error (.msg ("mpv error response: " ++ e))
  | Option.none => .error (.msg ("unknown mpv response: " ++ resp.fmtDebug))

/-- The read loop of `send_recv_command`: keep reading lines, parsing
each as a command response, until one carries the request-id just sent;
at end of stream the empty read buffer fails JSON parsing. Returns the
result together with the unread remainder of the stream. -/
def recvLoop (rid : Int) : List ReadItem → (Except MpvError Value × List ReadItem)
  | [] => (.error (.serde "EOF while parsing a value at line 1 column 0"), [])
  | .ioErr code s :: rest => (.error (.ioErr code s), rest)
  | .line j :: rest =>
      match CommandResponse.fromJson j with
      | .error e => (.error (.serde e), rest)
      | .ok resp =>
          if resp.request_id = some rid then (classifyResponse resp, rest)
          else recvLoop rid rest

/-- lib.rs `MpvSocket::send_recv_command`: fail fast when closed,
otherwise allocate the next request-id, write the request, and run the
read loop. -/
def send_recv_command (s : MpvSocket) (command : Command) :
    Except MpvError Value × MpvSocket :=
  if s.closed then (.error (.msg "mpv socket is closed"), s)
  else
    let rid := RequestId.next s.last_request_id
    let request : Request := ⟨command, rid⟩
    let afterSend : MpvSocket :=
      { s with last_request_id := rid, outbound := s.outbound ++ [request] }
    let step := recvLoop rid afterSend.inbound
    (step.1, { afterSend with inbound := step.2 })

/-- lib.rs `MpvSocket::set_property`: send the command and discard the
(absent) payload. -/
def set_property (s : MpvSocket) (p : Property) (v : Value) :
    Except MpvError Unit × MpvSocket :=
  match send_recv_command s (Command.SetProperty p v) with
  | (.ok _, t) => (.ok (), t)
  | (.error e, t) => (.error e, t)

/-- Whether an event is terminal for the connection, as checked by the
match in `EventIter::next`: an explicit shutdown, or an end-file whose
reason is quit. -/
def isTerminalEvent : Event → Bool
  | .Shutdown => true
  | .EndFile efe => efe.reason = some Reason.Quit
  | _ => false

/-- lib.rs `EventIter::next`: return Nothing when already closed or on a
zero-length read; otherwise parse the line as an event envelope, set the
closed flag on a terminal event, and yield the envelope, or an error
item when parsing fails or the envelope carries a non-success error
string. -/
def EventIter.next (s : MpvSocket) :
    Option (Except MpvError EventResponse) × MpvSocket :=
  if s.closed then (Option.none, s)
  else
    match s.inbound with
    | [] => (Option.none, s)
    | .ioErr code m :: rest => (some (.error (.ioErr code m)), { s with inbound := rest })
    | .line j :: rest =>
        let s1 : MpvSocket := { s with inbound := rest }
        match EventResponse.fromJson j with
        | .error e => (some (.error (.serde e)), s1)
        | .ok ev =>
            let s2 : MpvSocket :=
              if isTerminalEvent ev.event then { s1 with closed := true } else s1
            match ev.error with
            | some e =>
                if e = "success" then (some (.ok ev), s2)
                else (some (.error (.msg ("mpv error response: " ++ e))), s2)
            | Option.none => (some (.ok ev), s2)

/-- lib.rs `MpvSocket::filter_property_change_event`: keep only
property-change events whose data is present; errors pass through. The
observer-id of the envelope is not consulted. -/
def filter_property_change_event (r : Except MpvError EventResponse) :
    Option (Except MpvError PropertyChangeEvent) :=
  match r with
  | .ok er =>
      match er.event with
      | .PropertyChange pce =>
          match pce.data with
          | .null => Option.none
          | _ => some (.ok pce)
      | _ => Option.none
  | .error e => some (.error e)

/-- Each pull of the underlying iterator that yields an item consumed
exactly one inbound read, so the unread stream shrinks. -/
theorem EventIter.next_shrinks {s : MpvSocket} {it : Except MpvError EventResponse}
    {t : MpvSocket} (h : EventIter.next s = (some it, t)) :
    t.inbound.length < s.inbound.length := by
  rcases s with ⟨inb, outb, rid, closed⟩
  cases closed
  · cases inb with
    | nil => simp [EventIter.next] at h
    | cons ri rest =>
        cases ri with
        | ioErr code m =>
            simp [EventIter.next] at h
            rw [← h.2]
            simp
        | line j =>
            rcases hj : EventResponse.fromJson j with e | ev
            · simp [EventIter.next, hj] at h
              rw [← h.2]
              simp
            · by_cases ht : isTerminalEvent ev.event
              · rcases he : ev.error with _ | e
                · simp [EventIter.next, hj, ht, he] at h
                  rw [← h.2]
                  simp
                · by_cases hs : e = "success"
                  · simp [EventIter.next, hj, ht, he, hs] at h
                    rw [← h.2]
                    simp
                  · simp [EventIter.next, hj, ht, he, hs] at h
                    rw [← h.2]
                    simp
              · rcases he : ev.error with _ | e
                · simp [EventIter.next, hj, ht, he] at h
                  rw [← h.2]
                  simp
                · by_cases hs : e = "success"
                  · simp [EventIter.next, hj, ht, he, hs] at h
                    rw [← h.2]
                    simp
                  · simp [EventIter.next, hj, ht, he, hs] at h
                    rw [← h.2]
                    simp
  · simp [EventIter.next] at h

section

attribute [local irreducible] EventIter.next

/-- A pull on the filtered sequence returned by `observe_property` and
`observe_properties`: iterate `EventIter::next` until the filter yields
an item or the underlying iterator ends. -/
def observeNext (s : MpvSocket) :
    Option (Except MpvError PropertyChangeEvent) × MpvSocket :=
  match h : EventIter.next s with
  | (Option.none, t) => (Option.none, t)
  | (some item, t) =>
      match filter_property_change_event item with
      | some out => (some out, t)
      | Option.none => observeNext t
termination_by s.inbound.length
decreasing_by exact EventIter.next_shrinks h

end

/-- The observer-ids a subscription over `num` properties registered and
must deregister: `1..=num` in ascending order (empty when `num < 1`). -/
def unobserveIds (num : Int) : List Int :=
  (List.range num.toNat).map (fun k => (k : Int) + 1)

/-- The unobserve loop in `Drop for EventIter`: send one
unobserve-property command per id, stopping at the first failure. -/
def dropLoop (s : MpvSocket) : List Int → (Except MpvError Unit × MpvSocket)
  | [] => (.ok (), s)
  | i :: rest =>
      match send_recv_command s (Command.UnobserveProperty i) with
      | (.ok _, t) => dropLoop t rest
      | (.error e, t) => (.error e, t)

/-- Outcome of dropping an EventIter: the final socket state and the
error reported to the log, if any. Nothing is ever re-raised: the
function has no error result. -/
structure DropOutcome where
  socket : MpvSocket
  loggedError : Option MpvError

/-- lib.rs `Drop for EventIter`: nothing is sent when the connection is
already closed; otherwise unobserve each id in ascending order until the
first failure. A failure whose cause is an I/O error with OS code
ERROR_NO_DATA is swallowed silently; any other failure is only logged. -/
def EventIter.dropIter (s : MpvSocket) (num_observed_properties : Int) : DropOutcome :=
  if s.closed then ⟨s, Option.none⟩
  else
    match dropLoop s (unobserveIds num_observed_properties) with
    | (.ok _, t) => ⟨t, Option.none⟩
    | (.error e, t) =>
        match e with
        | .ioErr (some code) m =>
            if code = ERROR_NO_DATA then ⟨t, Option.none⟩
            else ⟨t, some (.ioErr (some code) m)⟩
        | e => ⟨t, some e⟩

/-- An I/O error as surfaced by `OpenOptions::open`: the optional raw OS
code and the display text. -/
structure OpenError where
  osCode : Option Int
  display : String
deriving DecidableEq

/-- Whether an open error is the transient busy condition the connect
loop retries on. -/
def OpenError.isBusy (e : OpenError) : Bool :=
  e.osCode = some ERROR_PIPE_BUSY

/-- Outcome of `MpvSocket::connect`: the result, the number of open
attempts made, and the sleeps (in milliseconds) between attempts. -/
structure ConnectOutcome where
  result : Except MpvError MpvSocket
  attempts : Nat
  sleeps : List Nat

/-- The retry loop of `MpvSocket::connect`. `openAt k` is what the k-th
`OpenOptions::open` call returns (the environment); `inbound` is the
stream the successfully opened channel will carry. `tries_left` starts
at 5 and is decremented on each busy failure; when it reaches zero the
last busy error is surfaced. -/
def connectLoop (openAt : Nat → Except OpenError Unit) (inbound : List ReadItem) :
    Nat → Nat → List Nat → ConnectOutcome
  | triesLeft, attempt, sleeps =>
      match openAt attempt with
      | .ok _ =>
          ⟨.ok ⟨inbound, [], RequestId.new, false⟩, attempt + 1, sleeps⟩
      | .error e =>
          if e.isBusy then
            if triesLeft - 1 ≠ 0 then
              connectLoop openAt inbound (triesLeft - 1) (attempt + 1) (sleeps ++ [10])
            else
              ⟨.error (.msg ("failed to open mpv socket: " ++ e.display)), attempt + 1, sleeps⟩
          else
            ⟨.error (.msg ("failed to open mpv socket: " ++ e.display)), attempt + 1, sleeps⟩
termination_by triesLeft _ _ => triesLeft
decreasing_by omega

/-- lib.rs `MpvSocket::connect`: up to five open attempts with a 10ms
sleep between busy attempts; on success a fresh connection with the
request-id counter at zero and the closed flag unset. -/
def connect (openAt : Nat → Except OpenError Unit) (inbound : List ReadItem) :
    ConnectOutcome :=
  connectLoop openAt inbound 5 0 []

/-- The registration loop of `observe_properties`: one observe-property
command per property with the 1-based sequential index, aborting on the
first failure. Returns the final property index (the number of
registered observers) on success. -/
def obsLoop (s : MpvSocket) (property_index : Int) :
    List Property → (Except MpvError Int × MpvSocket)
  | [] => (.ok property_index, s)
  | p :: rest =>
      match send_recv_command s (Command.ObserveProperty (property_index + 1) p) with
      | (.ok _, t) => obsLoop t (property_index + 1) rest
      | (.error e, t) => (.error e, t)

/-- lib.rs `MpvSocket::observe_properties` (registration part). -/
def observe_properties (s : MpvSocket) (props : List Property) :
    Except MpvError Int × MpvSocket :=
  obsLoop s 0 props

/-- lib.rs `MpvSocket::observe_property` (registration part): a single
observer with id 1. -/
def observe_property (s : MpvSocket) (p : Property) :
    Except MpvError Unit × MpvSocket :=
  match send_recv_command s (Command.ObserveProperty 1 p) with
  | (.ok _, t) => (.ok (), t)
  | (.error e, t) => (.error e, t)

/-- The observer-ids registered by a subscription over `num` properties:
the 1-based sequential indices issued by the registration loop. -/
def registeredIds (num : Int) : List Int :=
  (List.range num.toNat).map (fun k => (k : Int) + 1)

/-- One-step unfolding of `observeNext` when the underlying iterator
ends. -/
theorem observeNext_end {s t : MpvSocket}
    (h : EventIter.next s = (Option.none, t)) :
    observeNext s = (Option.none, t) := by
  rw [observeNext]
  split
  · rename_i t' heq
    rw [h] at heq
    injection heq with h1 h2
    rw [h2]
  · rename_i item t' heq
    rw [h] at heq
    injection heq with h1 h2
    exact Option.noConfusion h1

/-- One-step unfolding of `observeNext` when the connection is closed:
the sequence yields nothing and the state is untouched. -/
theorem observeNext_closed {s : MpvSocket} (h : s.closed = true) :
    observeNext s = (Option.none, s) := by
  refine observeNext_end ?_
  simp [EventIter.next, h]

/-- One-step unfolding of `observeNext` when the filter keeps the item. -/
theorem observeNext_emit {s t : MpvSocket} {item : Except MpvError EventResponse}
    {out : Except MpvError PropertyChangeEvent}
    (h : EventIter.next s = (some item, t))
    (hf : filter_property_change_event item = some out) :
    observeNext s = (some out, t) := by
  rw [observeNext]
  split
  · rename_i t' heq
    rw [h] at heq
    injection heq with h1 h2
    exact Option.noConfusion h1
  · rename_i item' t' heq
    rw [h] at heq
    injection heq with h1 h2
    injection h1 with h1
    rw [← h1, ← h2, hf]

/-- One-step unfolding of `observeNext` when the filter drops the item:
the pull loops on the successor state. -/
theorem observeNext_skip {s t : MpvSocket} {item : Except MpvError EventResponse}
    (h : EventIter.next s = (some item, t))
    (hf : filter_property_change_event item = Option.none) :
    observeNext s = observeNext t := by
  rw [observeNext]
  split
  · rename_i t' heq
    rw [h] at heq
    injection heq with h1 h2
    exact Option.noConfusion h1
  · rename_i item' t' heq
    rw [h] at heq
    injection heq with h1 h2
    injection h1 with h1
    rw [← h1, ← h2, hf]

/-- C10: every call to `send_recv` leaves the Connection's closed flag
unchanged — inbound lines discarded while waiting for the matching
command reply, including interleaved shutdown or end-file-with-quit
events, never set `closed`; concretely, a command exchange that skips a
shutdown line and an end-file-quit line still returns the matching reply
and leaves the connection open, so a terminal event consumed during a
command exchange goes undetected. -/
theorem send_recv_leaves_closed_unchanged :
    (∀ (s : MpvSocket) (c : Command), (send_recv_command s c).2.closed = s.closed) ∧
    send_recv_command
        ⟨[ReadItem.line (Value.obj [("event", Value.str "shutdown")]),
          ReadItem.line (Value.obj [("event", Value.str "end-file"), ("reason", Value.str "quit")]),
          ReadItem.line (Value.obj [("request_id", Value.number (.int 1)),
            ("error", Value.str "success"), ("data", Value.bool true)])],
         [], 0, false⟩ Command.ClientName
      = (.ok (Value.bool true), ⟨[], [⟨Command.ClientName, 1⟩], 1, false⟩) := by
  constructor
  · intro s c
    by_cases h : s.closed
    · simp [send_recv_command, h]
    · simp [send_recv_command, h]
  · rfl

/-- C5: on a non-closed Connection each sent command carries the
request-id obtained by pre-incrementing the counter with wrapping
signed 64-bit arithmetic; the increment is exactly one within range,
overflow wraps from the maximum through the minimum, the counter starts
at 0 so the first request carries id 1, and the wire encoding carries
that id in the `request_id` field. -/
theorem request_id_wire_increment :
    (∀ (s : MpvSocket) (c : Command), s.closed = false →
      (send_recv_command s c).2.outbound
          = s.outbound ++ [⟨c, RequestId.next s.last_request_id⟩] ∧
      (send_recv_command s c).2.last_request_id = RequestId.next s.last_request_id) ∧
    (∀ r : Int, i64Min ≤ r → r < i64Max → RequestId.next r = r + 1) ∧
    RequestId.next i64Max = i64Min ∧
    RequestId.new = 0 ∧
    RequestId.next RequestId.new = 1 ∧
    (∀ r : Request, r.toJson
        = "\x7b\"command\":" ++ r.command.toJson ++ ",\"request_id\":"
            ++ toString r.request_id ++ "\x7d") := by
  refine ⟨?_, ?_, by decide, rfl, by decide, fun r => rfl⟩
  · intro s c h
    constructor
    · simp [send_recv_command, h]
    · simp [send_recv_command, h]
  · intro r h1 h2
    simp only [RequestId.next, RequestId.advance, wrapI64, i64Min, i64Max] at *
    norm_num at *
    omega

/-- Witness for C5 at a fresh connection sending one command. -/
theorem request_id_wire_increment_witness :
    (send_recv_command ⟨[], [], 0, false⟩ Command.GetVersion).2.outbound
        = [⟨Command.GetVersion, 1⟩] ∧
    (send_recv_command ⟨[], [], 0, false⟩ Command.GetVersion).2.last_request_id = 1 ∧
    RequestId.next 5 = 6 := by
  have h := request_id_wire_increment
  have h1 := h.1 ⟨[], [], 0, false⟩ Command.GetVersion rfl
  refine ⟨?_, ?_, ?_⟩
  · rw [h1.1]
    rfl
  · rw [h1.2]
    rfl
  · have h5 := h.2.1 5 (by norm_num [i64Min]) (by norm_num [i64Max])
    rw [h5]
    decide

/-- A read item the correlator's loop skips for the given request-id: a
line that parses as a command response whose request-id differs from or
is absent for the awaited one. -/
def skipsForRid (rid : Int) : ReadItem → Bool
  | .line j =>
      match CommandResponse.fromJson j with
      | .ok r => if r.request_id = some rid then false else true
      | .error _ => false
  | .ioErr _ _ => false

/-- The read loop consumes every skippable line before a matching reply
and classifies the first matching reply. -/
theorem recvLoop_skips {rid : Int} (pre : List ReadItem) (rest : List ReadItem)
    (m : Value) (resp : CommandResponse)
    (hskip : ∀ item ∈ pre, skipsForRid rid item = true)
    (hm : CommandResponse.fromJson m = .ok resp)
    (hrid : resp.request_id = some rid) :
    recvLoop rid (pre ++ ReadItem.line m :: rest) = (classifyResponse resp, rest) := by
  induction pre with
  | nil => simp [recvLoop, hm, hrid]
  | cons item pre ih =>
      have hitem := hskip item (List.mem_cons_self item pre)
      have hrest : ∀ x ∈ pre, skipsForRid rid x = true :=
        fun x hx => hskip x (List.mem_cons_of_mem item hx)
      cases item with
      | ioErr code msg => simp [skipsForRid] at hitem
      | line j =>
          rcases hj : CommandResponse.fromJson j with e | r
          · simp [skipsForRid, hj] at hitem
          · by_cases hr : r.request_id = some rid
            · simp [skipsForRid, hj, hr] at hitem
            · simpa [recvLoop, hj, hr] using ih hrest

/-- C1: on a non-closed Connection, the first inbound line whose
request-id equals the id of the request just sent determines the
result of `send_recv` — error exactly "success" yields `Ok(data)`, any
other error string a descriptive error, and an envelope with neither
data nor a recognized error the "unknown response" error — while every
preceding line whose request-id differs or is absent is consumed and
never returned to the caller. -/
theorem send_recv_first_match (s : MpvSocket) (c : Command)
    (pre rest : List ReadItem) (m : Value) (resp : CommandResponse)
    (hclosed : s.closed = false)
    (hin : s.inbound = pre ++ ReadItem.line m :: rest)
    (hskip : ∀ item ∈ pre, skipsForRid (RequestId.next s.last_request_id) item = true)
    (hm : CommandResponse.fromJson m = .ok resp)
    (hrid : resp.request_id = some (RequestId.next s.last_request_id)) :
    ((send_recv_command s c).1 = classifyResponse resp ∧
     (send_recv_command s c).2.inbound = rest) ∧
    (resp.error = some "success" → (send_recv_command s c).1 = .ok resp.data) ∧
    (∀ e, resp.error = some e → e ≠ "success" →
        (send_recv_command s c).1 = .error (.msg ("mpv error response: " ++ e))) ∧
    (resp.error = Option.none → resp.data = Value.none →
        (send_recv_command s c).1
          = .error (.msg ("unknown mpv response: " ++ resp.fmtDebug))) := by
  have hloop := recvLoop_skips pre rest m resp hskip hm hrid
  have hmain : (send_recv_command s c).1 = classifyResponse resp ∧
      (send_recv_command s c).2.inbound = rest := by
    constructor
    · simp [send_recv_command, hclosed, hin, hloop]
    · simp [send_recv_command, hclosed, hin, hloop]
  refine ⟨hmain, ?_, ?_, ?_⟩
  · intro hsucc
    rw [hmain.1, classifyResponse, hsucc]
    simp
  · intro e he hne
    rw [hmain.1, classifyResponse, he]
    simp [hne]
  · intro he _
    rw [hmain.1, classifyResponse, he]

/-- Witness for C1: a pending shutdown event line (request-id absent) is
skipped and the matching success reply returns its data. -/
theorem send_recv_first_match_witness :
    (send_recv_command
        ⟨[ReadItem.line (Value.obj [("event", Value.str "shutdown")]),
          ReadItem.line (Value.obj [("request_id", Value.number (.int 1)),
            ("error", Value.str "success"),
            ("data", Value.number (.float 50))])],
         [], 0, false⟩ Command.GetTimeUs).1
      = .ok (Value.number (.float 50)) := by
  have h := send_recv_first_match
    ⟨[ReadItem.line (Value.obj [("event", Value.str "shutdown")]),
      ReadItem.line (Value.obj [("request_id", Value.number (.int 1)),
        ("error", Value.str "success"),
        ("data", Value.number (.float 50))])],
     [], 0, false⟩ Command.GetTimeUs
    [ReadItem.line (Value.obj [("event", Value.str "shutdown")])] []
    (Value.obj [("request_id", Value.number (.int 1)),
      ("error", Value.str "success"),
      ("data", Value.number (.float 50))])
    ⟨some 1, some "success", Value.number (.float 50)⟩
    rfl rfl (by intro item hitem; fin_cases hitem; rfl) rfl rfl
  exact h.2.1 rfl

/-- One-step behaviour of the underlying iterator on a line that parses
as an event envelope. -/
theorem EventIter.next_line_ok {s : MpvSocket} {j : Value} {rest : List ReadItem}
    {ev : EventResponse} (hc : s.closed = false)
    (hi : s.inbound = ReadItem.line j :: rest)
    (hj : EventResponse.fromJson j = .ok ev) :
    EventIter.next s =
      (match ev.error with
       | some e =>
           if e = "success" then some (.ok ev)
           else some (.error (.msg ("mpv error response: " ++ e)))
       | Option.none => some (.ok ev),
       if isTerminalEvent ev.event then { s with inbound := rest, closed := true }
       else { s with inbound := rest }) := by
  simp [EventIter.next, hc, hi, hj]
  rcases ev.error with _ | e
  · rfl
  · by_cases hs : e = "success" <;> simp [hs]

/-- A terminal event envelope is not a property change, so the filter
drops it. -/
theorem filter_drops_terminal {ev : EventResponse}
    (h : isTerminalEvent ev.event = true) :
    filter_property_change_event (.ok ev) = Option.none := by
  cases hev : ev.event <;>
    simp [isTerminalEvent, hev, filter_property_change_event] at h ⊢

/-- Counterexample to C2 as stated: a pull that reads a shutdown event
whose envelope carries a non-success error string does emit an item (an
error item) for that line, although the closed flag is set. -/
theorem terminal_event_counterexample :
    (observeNext ⟨[ReadItem.line (Value.obj [("event", Value.str "shutdown"),
        ("error", Value.str "property unavailable")])], [], 0, false⟩).1
      = some (.error (.msg "mpv error response: property unavailable")) ∧
    (observeNext ⟨[ReadItem.line (Value.obj [("event", Value.str "shutdown"),
        ("error", Value.str "property unavailable")])], [], 0, false⟩).2.closed
      = true := by
  have h1 : EventIter.next ⟨[ReadItem.line (Value.obj [("event", Value.str "shutdown"),
      ("error", Value.str "property unavailable")])], [], 0, false⟩
      = (some (.error (.msg "mpv error response: property unavailable")),
         ⟨[], [], 0, true⟩) := rfl
  have h2 : filter_property_change_event
      (.error (.msg "mpv error response: property unavailable"))
      = some (.error (.msg "mpv error response: property unavailable")) := rfl
  rw [observeNext_emit h1 h2]
  exact ⟨rfl, rfl⟩

/-- C2 (amended): when a pull of the subscription sequence reads a
shutdown event, or an end-file event whose reason is quit, the closed
flag is set to true and the closed state is permanent — subsequent
`send_recv` calls fail with the socket-closed error and subsequent
pulls yield no items. No item is emitted for the terminal line when its
envelope carries no error string or the string "success"; if it carries
any other error string, an error item is emitted for that line. -/
theorem terminal_event_closes_connection (s : MpvSocket) (j : Value)
    (rest : List ReadItem) (ev : EventResponse)
    (hc : s.closed = false)
    (hi : s.inbound = ReadItem.line j :: rest)
    (hj : EventResponse.fromJson j = .ok ev)
    (hterm : isTerminalEvent ev.event = true) :
    ((ev.error = Option.none ∨ ev.error = some "success") →
        (observeNext s).1 = Option.none ∧ (observeNext s).2.closed = true) ∧
    (∀ e, ev.error = some e → e ≠ "success" →
        (observeNext s).1 = some (.error (.msg ("mpv error response: " ++ e))) ∧
        (observeNext s).2.closed = true) ∧
    (∀ (t : MpvSocket) (c : Command), t.closed = true →
        send_recv_command t c = (.error (.msg "mpv socket is closed"), t) ∧
        observeNext t = (Option.none, t)) := by
  have hnext := EventIter.next_line_ok hc hi hj
  rw [if_pos hterm] at hnext
  refine ⟨?_, ?_, ?_⟩
  · intro herr
    have hitem : EventIter.next s
        = (some (.ok ev), { s with inbound := rest, closed := true }) := by
      rcases herr with herr | herr
      · rw [hnext, herr]
      · rw [hnext, herr]
        simp
    rw [observeNext_skip hitem (filter_drops_terminal hterm),
        observeNext_closed (show ({ s with inbound := rest, closed := true} : MpvSocket).closed = true from rfl)]
    exact ⟨rfl, rfl⟩
  · intro e he hne
    have hitem : EventIter.next s
        = (some (.error (.msg ("mpv error response: " ++ e))),
           { s with inbound := rest, closed := true }) := by
      rw [hnext, he]
      simp [hne]
    rw [observeNext_emit hitem rfl]
    exact ⟨rfl, rfl⟩
  · intro t c ht
    refine ⟨?_, observeNext_closed ht⟩
    simp [send_recv_command, ht]

/-- Witness for C2 (amended): a plain shutdown line closes the
connection without emitting an item, and a closed connection rejects
commands and pulls. -/
theorem terminal_event_closes_connection_witness :
    (observeNext ⟨[ReadItem.line (Value.obj [("event", Value.str "shutdown")])],
        [], 0, false⟩).1 = Option.none ∧
    (observeNext ⟨[ReadItem.line (Value.obj [("event", Value.str "shutdown")])],
        [], 0, false⟩).2.closed = true ∧
    send_recv_command ⟨[], [], 5, true⟩ Command.GetVersion
      = (.error (.msg "mpv socket is closed"), ⟨[], [], 5, true⟩) := by
  have h := terminal_event_closes_connection
    ⟨[ReadItem.line (Value.obj [("event", Value.str "shutdown")])], [], 0, false⟩
    (Value.obj [("event", Value.str "shutdown")]) []
    ⟨Event.Shutdown, Option.none, Option.none⟩ rfl rfl rfl rfl
  exact ⟨(h.1 (Or.inl rfl)).1, (h.1 (Or.inl rfl)).2,
    (h.2.2 ⟨[], [], 5, true⟩ Command.GetVersion rfl).1⟩

/-- How the filter treats a property-change envelope: present data is
kept, absent data is dropped. -/
theorem filter_property_change_cases {ev : EventResponse}
    {pce : PropertyChangeEvent} (hev : ev.event = .PropertyChange pce) :
    (pce.data.isNull = false →
        filter_property_change_event (.ok ev) = some (.ok pce)) ∧
    (pce.data.isNull = true →
        filter_property_change_event (.ok ev) = Option.none) := by
  constructor
  · intro hd
    cases hdata : pce.data <;>
      simp [Value.isNull, hdata, filter_property_change_event, hev] <;>
      simp [Value.isNull, hdata] at hd
  · intro hd
    cases hdata : pce.data <;>
      simp [Value.isNull, hdata, filter_property_change_event, hev] <;>
      simp [Value.isNull, hdata] at hd

/-- Counterexample to C3 as stated: a property-change line addressed to
observer-id 2, while only observer-id 1 is registered (a single
`observe_property` subscription), is still emitted — the filter never
consults the observer-id. -/
theorem property_change_unregistered_id_counterexample :
    (observeNext ⟨[ReadItem.line (Value.obj [("event", Value.str "property-change"),
        ("id", Value.number (.int 2)), ("name", Value.str "volume"),
        ("data", Value.number (.float 52))])], [], 1, false⟩).1
      = some (.ok ⟨Property.Volume, Value.number (.float 52)⟩) ∧
    (registeredIds 1).contains 2 = false := by
  constructor
  · have h1 : EventIter.next ⟨[ReadItem.line (Value.obj [("event", Value.str "property-change"),
        ("id", Value.number (.int 2)), ("name", Value.str "volume"),
        ("data", Value.number (.float 52))])], [], 1, false⟩
        = (some (.ok ⟨Event.PropertyChange ⟨Property.Volume, Value.number (.float 52)⟩,
            some 2, Option.none⟩), ⟨[], [], 1, false⟩) := rfl
    have h2 : filter_property_change_event
        (.ok ⟨Event.PropertyChange ⟨Property.Volume, Value.number (.float 52)⟩,
          some 2, Option.none⟩)
        = some (.ok ⟨Property.Volume, Value.number (.float 52)⟩) := rfl
    rw [observeNext_emit h1 h2]
  · decide

/-- C3 (amended): a line parsed as a property-change event is emitted as
the next item exactly when its carried value is not the absent
placeholder; a null-data property-change is skipped without an item.
The observer-id of the envelope is never consulted, so registration
does not influence emission. -/
theorem property_change_filter (s : MpvSocket) (j : Value) (rest : List ReadItem)
    (ev : EventResponse) (pce : PropertyChangeEvent)
    (hc : s.closed = false)
    (hi : s.inbound = ReadItem.line j :: rest)
    (hj : EventResponse.fromJson j = .ok ev)
    (hev : ev.event = .PropertyChange pce)
    (herr : ev.error = Option.none) :
    (pce.data.isNull = false →
        observeNext s = (some (.ok pce), { s with inbound := rest })) ∧
    (pce.data.isNull = true →
        observeNext s = observeNext { s with inbound := rest }) ∧
    (∀ id1 id2 : Option Int,
        filter_property_change_event (.ok ⟨ev.event, id1, ev.error⟩)
          = filter_property_change_event (.ok ⟨ev.event, id2, ev.error⟩)) := by
  have hterm : isTerminalEvent ev.event = false := by
    rw [hev]
    rfl
  have hnext : EventIter.next s = (some (.ok ev), { s with inbound := rest }) := by
    rw [EventIter.next_line_ok hc hi hj, herr, if_neg (by rw [hterm]; exact fun h => nomatch h)]
  refine ⟨?_, ?_, ?_⟩
  · intro hd
    exact observeNext_emit hnext ((filter_property_change_cases hev).1 hd)
  · intro hd
    exact observeNext_skip hnext ((filter_property_change_cases hev).2 hd)
  · intro id1 id2
    rfl

/-- Witness for C3 (amended): with observer-id 1 registered, a
property-change for id 1 with data 52.0 yields the item 52.0, and the
same line with null data yields no item and ends the sequence. -/
theorem property_change_filter_witness :
    observeNext ⟨[ReadItem.line (Value.obj [("event", Value.str "property-change"),
        ("id", Value.number (.int 1)), ("name", Value.str "volume"),
        ("data", Value.number (.float 52))])], [], 1, false⟩
      = (some (.ok ⟨Property.Volume, Value.number (.float 52)⟩), ⟨[], [], 1, false⟩) ∧
    observeNext ⟨[ReadItem.line (Value.obj [("event", Value.str "property-change"),
        ("id", Value.number (.int 1)), ("name", Value.str "volume"),
        ("data", Value.null)])], [], 1, false⟩
      = observeNext ⟨[], [], 1, false⟩ := by
  constructor
  · exact (property_change_filter
      ⟨[ReadItem.line (Value.obj [("event", Value.str "property-change"),
          ("id", Value.number (.int 1)), ("name", Value.str "volume"),
          ("data", Value.number (.float 52))])], [], 1, false⟩
      (Value.obj [("event", Value.str "property-change"),
          ("id", Value.number (.int 1)), ("name", Value.str "volume"),
          ("data", Value.number (.float 52))]) []
      ⟨Event.PropertyChange ⟨Property.Volume, Value.number (.float 52)⟩,
        some 1, Option.none⟩
      ⟨Property.Volume, Value.number (.float 52)⟩
      rfl rfl rfl rfl rfl).1 rfl
  · exact (property_change_filter
      ⟨[ReadItem.line (Value.obj [("event", Value.str "property-change"),
          ("id", Value.number (.int 1)), ("name", Value.str "volume"),
          ("data", Value.null)])], [], 1, false⟩
      (Value.obj [("event", Value.str "property-change"),
          ("id", Value.number (.int 1)), ("name", Value.str "volume"),
          ("data", Value.null)]) []
      ⟨Event.PropertyChange ⟨Property.Volume, Value.null⟩, some 1, Option.none⟩
      ⟨Property.Volume, Value.null⟩
      rfl rfl rfl rfl rfl).2.1 rfl

/-- Counterexample to C6 as stated: a zero-length read (empty remaining
stream, remote closed) ends the sequence with no item, but the closed
flag stays false — the code returns before ever setting it. -/
theorem zero_length_read_counterexample :
    (observeNext ⟨[], [], 0, false⟩).1 = Option.none ∧
    (observeNext ⟨[], [], 0, false⟩).2.closed = false := by
  have h : EventIter.next ⟨[], [], 0, false⟩ = (Option.none, ⟨[], [], 0, false⟩) := rfl
  rw [observeNext_end h]
  exact ⟨rfl, rfl⟩

/-- C6 (amended): a zero-length read from the channel ends the
subscription sequence with no further item and no error item, and
leaves the Connection's closed flag unchanged (still false) — the
zero-length read is not one of the triggers that set `closed`. -/
theorem zero_length_read_ends_sequence (s : MpvSocket)
    (hc : s.closed = false) (hi : s.inbound = []) :
    observeNext s = (Option.none, s) ∧
    (observeNext s).2.closed = false ∧
    EventIter.next s = (Option.none, s) := by
  have h : EventIter.next s = (Option.none, s) := by
    simp [EventIter.next, hc, hi]
  have ho := observeNext_end h
  refine ⟨ho, ?_, h⟩
  rw [ho]
  exact hc

/-- Witness for C6 (amended) at a concrete drained connection. -/
theorem zero_length_read_ends_sequence_witness :
    observeNext ⟨[], [], 7, false⟩ = (Option.none, ⟨[], [], 7, false⟩) ∧
    (observeNext ⟨[], [], 7, false⟩).2.closed = false ∧
    EventIter.next ⟨[], [], 7, false⟩ = (Option.none, ⟨[], [], 7, false⟩) :=
  zero_length_read_ends_sequence ⟨[], [], 7, false⟩ rfl rfl

/-- Every call of the correlator leaves the closed flag where it was
(helper shared by the teardown analysis). -/
theorem send_recv_command_closed (s : MpvSocket) (c : Command) :
    (send_recv_command s c).2.closed = s.closed := by
  by_cases h : s.closed
  · simp [send_recv_command, h]
  · simp [send_recv_command, h]

/-- On a non-closed connection the correlator appends exactly the one
request it sends (helper shared by the teardown analysis). -/
theorem send_recv_command_outbound (s : MpvSocket) (c : Command)
    (h : s.closed = false) :
    (send_recv_command s c).2.outbound
      = s.outbound ++ [⟨c, RequestId.next s.last_request_id⟩] := by
  simp [send_recv_command, h]

/-- The unobserve loop issues one command per id, in list order, up to
and including the first failing one, and succeeds only after issuing
them all; it never flips the closed flag. -/
theorem dropLoop_commands : ∀ (ids : List Int) (s : MpvSocket), s.closed = false →
    ∃ k, k ≤ ids.length ∧
      ((dropLoop s ids).2.outbound.map Request.command
        = s.outbound.map Request.command
            ++ (ids.take k).map Command.UnobserveProperty) ∧
      (∀ u, (dropLoop s ids).1 = .ok u → k = ids.length) ∧
      (dropLoop s ids).2.closed = false := by
  intro ids
  induction ids with
  | nil =>
      intro s hc
      exact ⟨0, by simp [dropLoop, hc]⟩
  | cons i rest ih =>
      intro s hc
      rcases hsr : send_recv_command s (Command.UnobserveProperty i) with ⟨res, t⟩
      have hcl : t.closed = false := by
        have := send_recv_command_closed s (Command.UnobserveProperty i)
        rw [hsr] at this
        rw [this]
        exact hc
      have hout : t.outbound
          = s.outbound ++ [⟨Command.UnobserveProperty i, RequestId.next s.last_request_id⟩] := by
        have := send_recv_command_outbound s (Command.UnobserveProperty i) hc
        rw [hsr] at this
        exact this
      cases res with
      | ok v =>
          obtain ⟨k, hk, hmap, hfull, hclosed⟩ := ih t hcl
          refine ⟨k + 1, by simpa using Nat.succ_le_succ hk, ?_, ?_, ?_⟩
          · simp only [dropLoop, hsr]
            rw [hmap, hout]
            simp
          · intro u hu
            simp only [dropLoop, hsr] at hu
            simp [hfull u hu]
          · simp only [dropLoop, hsr]
            exact hclosed
      | error e =>
          refine ⟨1, by simp, ?_, ?_, ?_⟩
          · simp only [dropLoop, hsr]
            rw [hout]
            simp
          · intro u hu
            simp only [dropLoop, hsr] at hu
            exact Except.noConfusion hu
          · simp only [dropLoop, hsr]
            exact hcl

/-- C4: on teardown of a subscription over ids 1..n, a closed connection
issues no unobserve command at all; otherwise the teardown issues one
unobserve-property command per observer-id in ascending order, stopping
at the first failure (all n are issued when the loop succeeds); no
teardown failure is re-raised — the channel-is-being-closed OS error is
never logged (swallowed silently) and any other failure is only
logged. -/
theorem drop_unobserves_each_registered_id (s : MpvSocket) (num : Int) :
    (s.closed = true → EventIter.dropIter s num = ⟨s, Option.none⟩) ∧
    (s.closed = false →
        ∃ k, k ≤ (unobserveIds num).length ∧
          ((EventIter.dropIter s num).socket.outbound.map Request.command
            = s.outbound.map Request.command
                ++ ((unobserveIds num).take k).map Command.UnobserveProperty) ∧
          (∀ u, (dropLoop s (unobserveIds num)).1 = .ok u →
              k = (unobserveIds num).length)) ∧
    (∀ e, (EventIter.dropIter s num).loggedError = some e →
        ∀ m, e ≠ .ioErr (some ERROR_NO_DATA) m) ∧
    (∀ m, (dropLoop s (unobserveIds num)).1
            = .error (.ioErr (some ERROR_NO_DATA) m) →
        (EventIter.dropIter s num).loggedError = Option.none) := by
  refine ⟨?_, ?_, ?_, ?_⟩
  · intro hc
    simp [EventIter.dropIter, hc]
  · intro hc
    obtain ⟨k, hk, hmap, hfull, hclosed⟩ := dropLoop_commands (unobserveIds num) s hc
    refine ⟨k, hk, ?_, hfull⟩
    have hsock : (EventIter.dropIter s num).socket = (dropLoop s (unobserveIds num)).2 := by
      rw [EventIter.dropIter, if_neg (by rw [hc]; exact fun h => nomatch h)]
      rcases hdl : dropLoop s (unobserveIds num) with ⟨res, t⟩
      cases res with
      | ok u => rfl
      | error e =>
          cases e with
          | msg m => rfl
          | serde m => rfl
          | ioErr code m =>
              cases code with
              | none => rfl
              | some c =>
                  by_cases hcode : c = ERROR_NO_DATA
                  · simp [hcode]
                  · simp [hcode]
    rw [hsock]
    exact hmap
  · intro e he m
    rw [EventIter.dropIter] at he
    by_cases hc : s.closed
    · simp [hc] at he
    · rw [if_neg hc] at he
      rcases hdl : dropLoop s (unobserveIds num) with ⟨res, t⟩
      rw [hdl] at he
      cases res with
      | ok u => simp at he
      | error e2 =>
          cases e2 with
          | msg m2 =>
              simp at he
              rw [← he]
              exact fun hcontra => nomatch hcontra
          | serde m2 =>
              simp at he
              rw [← he]
              exact fun hcontra => nomatch hcontra
          | ioErr code m2 =>
              cases code with
              | none =>
                  simp at he
                  rw [← he]
                  intro hcontra
                  injection hcontra with h1 h2
                  exact Option.noConfusion h1
              | some c =>
                  by_cases hcode : c = ERROR_NO_DATA
                  · simp [hcode] at he
                  · simp [hcode] at he
                    rw [← he]
                    intro hcontra
                    injection hcontra with h1 h2
                    injection h1 with h1
                    exact hcode h1
  · intro m hdl
    rw [EventIter.dropIter]
    by_cases hc : s.closed
    · simp [hc]
    · rw [if_neg hc]
      rcases hdl2 : dropLoop s (unobserveIds num) with ⟨res, t⟩
      rw [hdl2] at hdl
      cases res with
      | ok u => simp at hdl
      | error e2 =>
          simp at hdl
          rw [hdl]
          simp [ERROR_NO_DATA]

/-- Witness for C4: tearing down a subscription over two observer-ids
on an open connection with two success replies pending issues exactly
the two unobserve commands in ascending order, while a closed
connection issues none. -/
theorem drop_unobserves_each_registered_id_witness :
    (EventIter.dropIter
        ⟨[ReadItem.line (Value.obj [("request_id", Value.number (.int 1)),
            ("error", Value.str "success")]),
          ReadItem.line (Value.obj [("request_id", Value.number (.int 2)),
            ("error", Value.str "success")])], [], 0, false⟩ 2).socket.outbound.map
        Request.command
      = [Command.UnobserveProperty 1, Command.UnobserveProperty 2] ∧
    (EventIter.dropIter ⟨[], [], 3, true⟩ 0).socket.outbound = [] := by
  constructor
  · obtain ⟨k, hk, hmap, hfull⟩ :=
      (drop_unobserves_each_registered_id
        ⟨[ReadItem.line (Value.obj [("request_id", Value.number (.int 1)),
            ("error", Value.str "success")]),
          ReadItem.line (Value.obj [("request_id", Value.number (.int 2)),
            ("error", Value.str "success")])], [], 0, false⟩ 2).2.1 rfl
    have hok : (dropLoop
        ⟨[ReadItem.line (Value.obj [("request_id", Value.number (.int 1)),
            ("error", Value.str "success")]),
          ReadItem.line (Value.obj [("request_id", Value.number (.int 2)),
            ("error", Value.str "success")])], [], 0, false⟩ (unobserveIds 2)).1
        = .ok () := rfl
    rw [hfull () hok] at hmap
    rw [hmap]
    rfl
  · have h := (drop_unobserves_each_registered_id ⟨[], [], 3, true⟩ 0).1 rfl
    rw [h]

/-- A successful open ends the connect loop with a fresh connection. -/
theorem connectLoop_ok {openAt : Nat → Except OpenError Unit} {inbound : List ReadItem}
    {t a : Nat} {sleeps : List Nat} (h : openAt a = .ok ()) :
    connectLoop openAt inbound t a sleeps
      = ⟨.ok ⟨inbound, [], RequestId.new, false⟩, a + 1, sleeps⟩ := by
  rw [connectLoop, h]

/-- A busy failure with retries left sleeps 10ms and tries again. -/
theorem connectLoop_busy_step {openAt : Nat → Except OpenError Unit}
    {inbound : List ReadItem} {t a : Nat} {sleeps : List Nat} {e : OpenError}
    (h : openAt a = .error e) (hb : e.isBusy = true) (ht : 2 ≤ t) :
    connectLoop openAt inbound t a sleeps
      = connectLoop openAt inbound (t - 1) (a + 1) (sleeps ++ [10]) := by
  rw [connectLoop, h]
  simp only [hb, if_true]
  rw [if_pos (show t - 1 ≠ 0 by omega)]

/-- A busy failure with no retries left surfaces the connect error. -/
theorem connectLoop_busy_exhausted {openAt : Nat → Except OpenError Unit}
    {inbound : List ReadItem} {t a : Nat} {sleeps : List Nat} {e : OpenError}
    (h : openAt a = .error e) (hb : e.isBusy = true) (ht : t - 1 = 0) :
    connectLoop openAt inbound t a sleeps
      = ⟨.error (.msg ("failed to open mpv socket: " ++ e.display)), a + 1, sleeps⟩ := by
  rw [connectLoop, h]
  simp [hb, ht]

/-- A non-busy failure surfaces the connect error immediately. -/
theorem connectLoop_other_error {openAt : Nat → Except OpenError Unit}
    {inbound : List ReadItem} {t a : Nat} {sleeps : List Nat} {e : OpenError}
    (h : openAt a = .error e) (hb : e.isBusy = false) :
    connectLoop openAt inbound t a sleeps
      = ⟨.error (.msg ("failed to open mpv socket: " ++ e.display)), a + 1, sleeps⟩ := by
  rw [connectLoop, h]
  simp [hb]

/-- After k consecutive busy failures (k at most 4) the connect loop is
at attempt k with k sleeps taken and 5 - k tries left. -/
theorem connect_after_busy (openAt : Nat → Except OpenError Unit)
    (inbound : List ReadItem) :
    ∀ k : Nat, k ≤ 4 →
      (∀ i, i < k → ∃ m, openAt i = .error ⟨some ERROR_PIPE_BUSY, m⟩) →
      connect openAt inbound
        = connectLoop openAt inbound (5 - k) k (List.replicate k 10) := by
  intro k
  induction k with
  | zero =>
      intro _ _
      rfl
  | succ k ih =>
      intro hk hbusy
      obtain ⟨m, hm⟩ := hbusy k (Nat.lt_succ_self k)
      have hstep := @connectLoop_busy_step openAt inbound (5 - k) k
        (List.replicate k 10) ⟨some ERROR_PIPE_BUSY, m⟩ hm (by rfl) (by omega)
      rw [ih (by omega) (fun i hi => hbusy i (Nat.lt_succ_of_lt hi)), hstep]
      have h1 : 5 - k - 1 = 5 - (k + 1) := by omega
      have h2 : List.replicate k 10 ++ [10] = List.replicate (k + 1) (10 : Nat) :=
        (List.replicate_succ' k 10).symm
      rw [h1, h2]

/-- C7: `connect` retries the open only on the busy OS error, making at
most 5 attempts with a 10ms sleep between attempts; any non-busy error
or the exhaustion of the retries yields a connection error carrying the
underlying display text; success yields a Connection whose request-id
counter is 0 and whose closed flag is false. -/
theorem connect_retry_behaviour (openAt : Nat → Except OpenError Unit)
    (inbound : List ReadItem) :
    (∀ k : Nat, k ≤ 4 →
      (∀ i, i < k → ∃ m, openAt i = .error ⟨some ERROR_PIPE_BUSY, m⟩) →
      ((openAt k = .ok () →
          connect openAt inbound
            = ⟨.ok ⟨inbound, [], 0, false⟩, k + 1, List.replicate k 10⟩) ∧
       (∀ e, openAt k = .error e → e.isBusy = false →
          connect openAt inbound
            = ⟨.error (.msg ("failed to open mpv socket: " ++ e.display)), k + 1,
               List.replicate k 10⟩))) ∧
    ((∀ i, i < 5 → ∃ m, openAt i = .error ⟨some ERROR_PIPE_BUSY, m⟩) →
      ∀ m, openAt 4 = .error ⟨some ERROR_PIPE_BUSY, m⟩ →
        connect openAt inbound
          = ⟨.error (.msg ("failed to open mpv socket: " ++ m)), 5,
             List.replicate 4 10⟩) := by
  constructor
  · intro k hk hbusy
    have hpre := connect_after_busy openAt inbound k hk hbusy
    constructor
    · intro hok
      rw [hpre, connectLoop_ok hok]
      rfl
    · intro e he hnb
      rw [hpre, connectLoop_other_error he hnb]
  · intro hbusy m hm
    have hpre := connect_after_busy openAt inbound 4 (by omega)
      (fun i hi => hbusy i (by omega))
    rw [hpre, connectLoop_busy_exhausted hm (by rfl) (by rfl)]

/-- Witness for C7: two busy failures followed by a successful open
yield a fresh connection after three attempts and two 10ms sleeps. -/
theorem connect_retry_behaviour_witness :
    connect (fun i => if i < 2 then .error ⟨some ERROR_PIPE_BUSY, "busy"⟩ else .ok ()) []
      = ⟨.ok ⟨[], [], 0, false⟩, 3, [10, 10]⟩ := by
  have h := (connect_retry_behaviour
      (fun i => if i < 2 then .error ⟨some ERROR_PIPE_BUSY, "busy"⟩ else .ok ()) []).1
    2 (by omega)
    (fun i hi => ⟨"busy", by simp [hi]⟩)
  rw [(h.1 (by simp))]
  rfl

/-- property.rs `impl TryFromValue for bool`: exact-variant matching. -/
def boolTryFrom (v : Value) : Except MpvError Bool :=
  match v with
  | .bool b => .ok b
  | v => .error (.msg ("expected bool, but got: " ++ v.fmtDebug))

/-- property.rs `impl TryFromValue for String`: exact-variant matching. -/
def stringTryFrom (v : Value) : Except MpvError String :=
  match v with
  | .str s => .ok s
  | v => .error (.msg ("expected string, but got: " ++ v.fmtDebug))

/-- property.rs `impl TryFromValue for u64`, via `Value::as_u64`. -/
def u64TryFrom (v : Value) : Except MpvError Int :=
  match v.as_u64 with
  | some n => .ok n
  | Option.none => .error (.msg ("expected u64, but got: " ++ v.fmtDebug))

/-- property.rs `impl TryFromValue for i64`, via `Value::as_i64`. -/
def i64TryFrom (v : Value) : Except MpvError Int :=
  match v.as_i64 with
  | some n => .ok n
  | Option.none => .error (.msg ("expected i64, but got: " ++ v.fmtDebug))

/-- property.rs `impl TryFromValue for f64`, via `Value::as_f64`. -/
def f64TryFrom (v : Value) : Except MpvError Rat :=
  match v.as_f64 with
  | some x => .ok x
  | Option.none => .error (.msg ("expected f64, but got: " ++ v.fmtDebug))

/-- property.rs `impl TryFromValue for Vec<Value>`. -/
def vecTryFrom (v : Value) : Except MpvError (List Value) :=
  match v with
  | .arr elems => .ok elems
  | v => .error (.msg ("expected array, but got: " ++ v.fmtDebug))

/-- property.rs `impl TryFromValue for Map<String, Value>`. -/
def mapTryFrom (v : Value) : Except MpvError (List (String × Value)) :=
  match v with
  | .obj fields => .ok fields
  | v => .error (.msg ("expected object, but got: " ++ v.fmtDebug))

/-- C8: each typed extraction inspects the variant tag and either
unwraps the payload or fails with a type-mismatch error naming the
expected type and the actual shape; boolean and string extraction are
exact-variant only, floating-point extraction also accepts
integer-variant numbers, and integer extraction never accepts floats
(no other implicit widening). -/
theorem typed_extraction_behaviour :
    (∀ (v : Value) (b : Bool), boolTryFrom v = .ok b ↔ v = .bool b) ∧
    (∀ v : Value, (∀ b, v ≠ .bool b) →
        boolTryFrom v = .error (.msg ("expected bool, but got: " ++ v.fmtDebug))) ∧
    (∀ (v : Value) (s : String), stringTryFrom v = .ok s ↔ v = .str s) ∧
    (∀ v : Value, (∀ s, v ≠ .str s) →
        stringTryFrom v = .error (.msg ("expected string, but got: " ++ v.fmtDebug))) ∧
    (∀ n : Int, f64TryFrom (.number (.int n)) = .ok (n : Rat)) ∧
    (∀ q : Rat, f64TryFrom (.number (.float q)) = .ok q) ∧
    (∀ q : Rat, i64TryFrom (.number (.float q))
        = .error (.msg ("expected i64, but got: "
            ++ (Value.number (.float q)).fmtDebug))) ∧
    (∀ q : Rat, u64TryFrom (.number (.float q))
        = .error (.msg ("expected u64, but got: "
            ++ (Value.number (.float q)).fmtDebug))) ∧
    (∀ b : Bool, f64TryFrom (.bool b)
        = .error (.msg ("expected f64, but got: " ++ (Value.bool b).fmtDebug))) ∧
    (∀ s : String, f64TryFrom (.str s)
        = .error (.msg ("expected f64, but got: " ++ (Value.str s).fmtDebug))) := by
  refine ⟨?_, ?_, ?_, ?_, fun n => rfl, fun q => rfl, fun q => rfl, fun q => rfl,
    fun b => rfl, fun s => rfl⟩
  · intro v b
    cases v <;> simp [boolTryFrom]
  · intro v hv
    cases v with
    | bool b => exact absurd rfl (hv b)
    | null => rfl
    | number n => rfl
    | str s => rfl
    | arr elems => rfl
    | obj fields => rfl
  · intro v s
    cases v <;> simp [stringTryFrom]
  · intro v hv
    cases v with
    | str s => exact absurd rfl (hv s)
    | null => rfl
    | number n => rfl
    | bool b => rfl
    | arr elems => rfl
    | obj fields => rfl

/-- Witness for C8 at concrete values: exact boolean extraction,
integer-to-float promotion, and the rejection of a float by integer
extraction with the naming error. -/
theorem typed_extraction_behaviour_witness :
    boolTryFrom (Value.bool true) = .ok true ∧
    boolTryFrom (Value.str "yes")
      = .error (.msg ("expected bool, but got: " ++ (Value.str "yes").fmtDebug)) ∧
    f64TryFrom (Value.number (.int 52)) = .ok 52 ∧
    i64TryFrom (Value.number (.float 52))
      = .error (.msg ("expected i64, but got: "
          ++ (Value.number (.float 52)).fmtDebug)) := by
  have h := typed_extraction_behaviour
  refine ⟨(h.1 (Value.bool true) true).2 rfl,
    h.2.1 (Value.str "yes") (fun b hb => Value.noConfusion hb), ?_, ?_⟩
  · have h5 := h.2.2.2.2.1 52
    rw [h5]
    rfl
  · exact h.2.2.2.2.2.2.1 52

/-- C9: serializing a set-property("pause", true) command on a fresh
connection produces exactly the wire line
\x7b"command":["set_property","pause",true],"request_id":1\x7d, and
parsing its corresponding reply — error "success" and no data field —
yields Ok of the absent value, so `set_property` returns success with
no payload. -/
theorem set_property_round_trip (s : MpvSocket)
    (hc : s.closed = false) (hid : s.last_request_id = 0)
    (hin : s.inbound = [ReadItem.line (Value.obj [("request_id", Value.number (.int 1)),
        ("error", Value.str "success")])]) :
    Request.toJson ⟨Command.SetProperty Property.Pause (Value.bool true), 1⟩
      = "\x7b\"command\":[\"set_property\",\"pause\",true],\"request_id\":1\x7d" ∧
    (∀ rid : Int, Request.toJson ⟨Command.SetProperty Property.Pause (Value.bool true), rid⟩
      = ("\x7b\"command\":[\"set_property\",\"pause\",true],\"request_id\":"
          ++ toString rid) ++ "\x7d") ∧
    CommandResponse.fromJson (Value.obj [("request_id", Value.number (.int 1)),
        ("error", Value.str "success")])
      = .ok ⟨some 1, some "success", Value.none⟩ ∧
    (send_recv_command s (Command.SetProperty Property.Pause (Value.bool true))).1
      = .ok Value.none ∧
    (send_recv_command s (Command.SetProperty Property.Pause (Value.bool true))).2.outbound
      = s.outbound ++ [⟨Command.SetProperty Property.Pause (Value.bool true), 1⟩] ∧
    (set_property s Property.Pause (Value.bool true)).1 = .ok () := by
  have hrid : RequestId.next s.last_request_id = 1 := by
    rw [hid]
    rfl
  have hrecv : (send_recv_command s (Command.SetProperty Property.Pause (Value.bool true))).1
      = .ok Value.none := by
    simp only [send_recv_command, hc]
    simp only [hin, hrid]
    rfl
  refine ⟨rfl, fun rid => rfl, rfl, hrecv, ?_, ?_⟩
  · rw [send_recv_command_outbound s _ hc, hrid]
  · rw [set_property]
    rcases hsr : send_recv_command s (Command.SetProperty Property.Pause (Value.bool true))
      with ⟨res, t⟩
    rw [hsr] at hrecv
    simp at hrecv
    rw [hrecv]

/-- Witness for C9 at the concrete fresh connection. -/
theorem set_property_round_trip_witness :
    Request.toJson ⟨Command.SetProperty Property.Pause (Value.bool true), 1⟩
      = "\x7b\"command\":[\"set_property\",\"pause\",true],\"request_id\":1\x7d" ∧
    (send_recv_command
        ⟨[ReadItem.line (Value.obj [("request_id", Value.number (.int 1)),
            ("error", Value.str "success")])], [], 0, false⟩
        (Command.SetProperty Property.Pause (Value.bool true))).1
      = .ok Value.none ∧
    (set_property
        ⟨[ReadItem.line (Value.obj [("request_id", Value.number (.int 1)),
            ("error", Value.str "success")])], [], 0, false⟩
        Property.Pause (Value.bool true)).1 = .ok () := by
  have h := set_property_round_trip
    ⟨[ReadItem.line (Value.obj [("request_id", Value.number (.int 1)),
        ("error", Value.str "success")])], [], 0, false⟩ rfl rfl rfl
  exact ⟨h.1, h.2.2.2.1, h.2.2.2.2.2⟩

end Mpv
